import Mathlib

/-!
Verification of the Mega2048 gas-fix transaction hook.

The repository ships two versions of the hook:
* v1, the file useTransactions-fixed.tsx: getCurrentGasPrices, estimateGas,
  sendRawTransactionAndConfirm, initializeGameTransaction and
  playNewMoveTransaction;
* v2, the file useTransactions-fixed-v2.tsx (embedded in the repository
  README): getOptimizedGasConfig with tiered tips, a gas-price based fee
  candidate and an ordering check.

Amounts are in wei, modelled as Nat (JS BigInt values are nonnegative in all
reachable states except the cached balance, which is decremented optimistically
and is therefore an Int).  External calls (block lookup, gas estimation,
signing, the JSON-RPC post, the receipt wait) are modelled by an environment
record giving each call an outcome; a thrown JS exception is Except.error with
the message.  User-visible toasts and the network calls performed are recorded
in an event trace.
-/

/-- Wei in one gwei, as in the viem helper applied to a whole number. -/
def weiPerGwei : Nat := 1000000000

/-- parseGwei on a whole number of gwei. -/
def gwei (n : Nat) : Nat := n * weiPerGwei

/-- Pricing pair returned by the v1 function getCurrentGasPrices. -/
structure GasPricing where
  maxFeePerGas : Nat
  maxPriorityFeePerGas : Nat
deriving DecidableEq

/-- Error payload of a JSON-RPC response. -/
structure RpcErrorPayload where
  message : String
deriving DecidableEq

/-- JSON-RPC response of eth_sendRawTransaction: either an error payload or a
transaction hash in the result field. -/
structure RpcResponse where
  error : Option RpcErrorPayload
  result : String
deriving DecidableEq

/-- Receipt status reported by waitForTransactionReceipt. -/
inductive ReceiptStatus
  | success
  | reverted
deriving DecidableEq

/-- Transaction receipt (only the status field is inspected by the code). -/
structure Receipt where
  status : ReceiptStatus
deriving DecidableEq

/-- Outcome of every external call the v1 hook can make.  Except.error models
a thrown exception carrying the message; for getBlock the Option is the
baseFeePerGas field, none when the block carries no base fee. -/
structure NetworkEnv where
  getBlockBaseFee : Except String (Option Nat)
  estimateGasResult : Except String Nat
  providerAvailable : Bool
  addressAvailable : Bool
  signResult : Except String String
  postResult : Except String RpcResponse
  receiptResult : Except String Receipt

/-- Observable events of one hook call: network calls and toasts, in order. -/
inductive Event
  | callGetBlock
  | callEstimateGas
  | callSign
  | callPost
  | callWaitReceipt
  | notifySubmitted
  | notifyConfirmed
  | notifyFailed (msg : String)
deriving DecidableEq

/-- v1 getCurrentGasPrices (useTransactions-fixed.tsx lines 90 to 114).  On a
block lookup the base fee defaults to 1 gwei when the field is absent or zero
(JS truthiness of the or-else), the max fee is twice the base fee and the tip
is a fixed 1 gwei; when the lookup throws, the catch block returns the fixed
pair of 2 gwei and 1 gwei.  The function is total: the caught error is never
surfaced to the caller. -/
def getCurrentGasPrices (blockResult : Except String (Option Nat)) : GasPricing :=
  match blockResult with
  | Except.error _ => { maxFeePerGas := gwei 2, maxPriorityFeePerGas := gwei 1 }
  | Except.ok bf =>
      { maxFeePerGas :=
          (match bf with
           | none => gwei 1
           | some b => if b = 0 then gwei 1 else b) * 2,
        maxPriorityFeePerGas := gwei 1 }

/-- v1 estimateGas (useTransactions-fixed.tsx lines 117 to 142).  With an
address available it calls the network estimation, multiplies by 120 over 100
on success and falls back to a flat 100000 when the estimation throws; a
missing address throws inside the try block and is caught by the same
fallback. -/
def estimateGas (addressAvailable : Bool) (estimateResult : Except String Nat) : Nat :=
  if addressAvailable then
    match estimateResult with
    | Except.ok est => est * 120 / 100
    | Except.error _ => 100000
  else 100000

/-- Network call events of one v1 estimateGas run: the estimation RPC is
reached only when the address check passes. -/
def estimateGasEvents (addressAvailable : Bool) : List Event :=
  if addressAvailable then [Event.callEstimateGas] else []

/-- Arguments of sendRawTransactionAndConfirm.  The optional BigInt fields are
Option Nat; JS truthiness makes an explicit zero behave like an absent
value. -/
structure SendArgs where
  successText : String
  data : String
  nonce : Nat
  gas : Option Nat
  maxFeePerGas : Option Nat
  maxPriorityFeePerGas : Option Nat

/-- JS truthiness of an optional BigInt: undefined and 0n are falsy. -/
def truthyN : Option Nat → Bool
  | none => false
  | some n => n != 0

/-- Condition of line 174: both caller fee fields present and truthy. -/
def feeParamsTruthy (args : SendArgs) : Bool :=
  truthyN args.maxFeePerGas && truthyN args.maxPriorityFeePerGas

/-- Fee pair actually used for signing (lines 173 to 176): the caller pair
when both fields are truthy, otherwise the network derived pair. -/
def resolveGasParams (env : NetworkEnv) (args : SendArgs) : GasPricing :=
  if feeParamsTruthy args then
    { maxFeePerGas := args.maxFeePerGas.getD 0,
      maxPriorityFeePerGas := args.maxPriorityFeePerGas.getD 0 }
  else getCurrentGasPrices env.getBlockBaseFee

/-- Gas limit actually used for signing (line 179): the caller value when
truthy, otherwise the network estimate with its fallback. -/
def resolveGasLimit (env : NetworkEnv) (args : SendArgs) : Nat :=
  if truthyN args.gas then args.gas.getD 0
  else estimateGas env.addressAvailable env.estimateGasResult

/-- Destination contract address constant. -/
def gameContractAddress : String := "GAME_CONTRACT_ADDRESS"

/-- The fully specified transaction handed to provider.signTransaction
(lines 183 to 191). -/
structure SignRequest where
  toAddress : String
  data : String
  nonce : Nat
  gas : Nat
  maxFeePerGas : Nat
  maxPriorityFeePerGas : Nat

/-- Assembles the signing request of sendRawTransactionAndConfirm from the
caller arguments and the resolved gas fields. -/
def signRequestOf (env : NetworkEnv) (args : SendArgs) : SignRequest :=
  { toAddress := gameContractAddress
    data := args.data
    nonce := args.nonce
    gas := resolveGasLimit env args
    maxFeePerGas := (resolveGasParams env args).maxFeePerGas
    maxPriorityFeePerGas := (resolveGasParams env args).maxPriorityFeePerGas }

/-- Body of the try block of sendRawTransactionAndConfirm (lines 162 to 288):
provider and address checks, gas resolution, signing, the JSON-RPC post with
its error payload check, the submitted toast, the receipt wait and the
reverted check, then the confirmed toast.  Returns the outcome together with
the ordered event trace. -/
def sendRawAttempt (env : NetworkEnv) (args : SendArgs) : Except String Unit × List Event :=
  if env.providerAvailable = false then (Except.error "Wallet not found.", [])
  else if env.addressAvailable = false then (Except.error "Privy user not found.", [])
  else
    let evGas : List Event :=
      (if feeParamsTruthy args then [] else [Event.callGetBlock]) ++
      (if truthyN args.gas then [] else estimateGasEvents env.addressAvailable)
    match env.signResult with
    | Except.error m => (Except.error m, evGas ++ [Event.callSign])
    | Except.ok _ =>
      match env.postResult with
      | Except.error m => (Except.error m, evGas ++ [Event.callSign, Event.callPost])
      | Except.ok resp =>
        match resp.error with
        | some payload =>
            (Except.error payload.message, evGas ++ [Event.callSign, Event.callPost])
        | none =>
          match env.receiptResult with
          | Except.error m =>
              (Except.error m,
               evGas ++ [Event.callSign, Event.callPost, Event.notifySubmitted,
                         Event.callWaitReceipt])
          | Except.ok receipt =>
            match receipt.status with
            | ReceiptStatus.reverted =>
                (Except.error ("Failed to confirm transaction: " ++ resp.result),
                 evGas ++ [Event.callSign, Event.callPost, Event.notifySubmitted,
                           Event.callWaitReceipt])
            | ReceiptStatus.success =>
                (Except.ok (),
                 evGas ++ [Event.callSign, Event.callPost, Event.notifySubmitted,
                           Event.callWaitReceipt, Event.notifyConfirmed])

/-- sendRawTransactionAndConfirm (lines 145 to 300): the catch block shows a
failure toast for any thrown error and then rethrows it, so the outcome is the
outcome of the try body and every error appends a failure notification to the
trace. -/
def sendRawTransactionAndConfirm (env : NetworkEnv) (args : SendArgs) :
    Except String Unit × List Event :=
  ((sendRawAttempt env args).1,
   (sendRawAttempt env args).2 ++
     (match (sendRawAttempt env args).1 with
      | Except.error m => [Event.notifyFailed m]
      | Except.ok _ => []))

/-- Cached account refs of the hook: nonce, balance (wei, may go negative
after optimistic decrements) and address. -/
structure AccountState where
  nonce : Nat
  balance : Int
  address : String
deriving DecidableEq

/-- parseEther of 0.01, the minimum balance threshold.  For integer wei the
float comparison parseFloat (formatEther balance) < 0.01 of the source agrees
exactly with balance < this constant. -/
def minBalanceWei : Int := 10000000000000000

/-- parseEther of 0.0075, the optimistic cost of initializing a game. -/
def initGameCostWei : Int := 7500000000000000

/-- parseEther of 0.005, the optimistic cost of playing a move. -/
def playMoveCostWei : Int := 5000000000000000

/-- Arguments that initializeGameTransaction passes to the submitter: call
data for startGame, the pre-increment nonce, and no gas fields (lines 407 to
416). -/
def initSendArgs (st : AccountState) : SendArgs :=
  { successText := "Started game!"
    data := "startGame call data"
    nonce := st.nonce
    gas := none
    maxFeePerGas := none
    maxPriorityFeePerGas := none }

/-- Arguments that playNewMoveTransaction passes to the submitter. -/
def playSendArgs (st : AccountState) (moveCount : Nat) : SendArgs :=
  { successText := "Played move " ++ toString moveCount
    data := "play call data"
    nonce := st.nonce
    gas := none
    maxFeePerGas := none
    maxPriorityFeePerGas := none }

/-- initializeGameTransaction (lines 364 to 417): balance threshold check
before anything else, then optimistic nonce increment and balance decrement,
then delegation to sendRawTransactionAndConfirm.  Returns the outcome, the
final cached account state and the event trace. -/
def initializeGameTransaction (env : NetworkEnv) (st : AccountState) :
    Except String Unit × AccountState × List Event :=
  if st.balance < minBalanceWei then
    (Except.error "Signer has insufficient balance.", st, [])
  else
    ((sendRawTransactionAndConfirm env (initSendArgs st)).1,
     { st with nonce := st.nonce + 1, balance := st.balance - initGameCostWei },
     (sendRawTransactionAndConfirm env (initSendArgs st)).2)

/-- playNewMoveTransaction (lines 419 to 473): same shape with the play call
data and the 0.005 ether optimistic cost. -/
def playNewMoveTransaction (env : NetworkEnv) (st : AccountState) (moveCount : Nat) :
    Except String Unit × AccountState × List Event :=
  if st.balance < minBalanceWei then
    (Except.error "Signer has insufficient balance.", st, [])
  else
    ((sendRawTransactionAndConfirm env (playSendArgs st moveCount)).1,
     { st with nonce := st.nonce + 1, balance := st.balance - playMoveCostWei },
     (sendRawTransactionAndConfirm env (playSendArgs st moveCount)).2)

/-- parseEther of 0.001, the v2 base fee fallback (commented 1 gwei in the
source, which actually uses parseEther). -/
def v2BaseFeeFallback : Nat := 1000000000000000

/-- parseEther of 0.002, the v2 gas price fallback and the high tip tier. -/
def v2GasPriceFallback : Nat := 2000000000000000

/-- parseEther of 0.0005, the v2 low tip tier. -/
def v2LowTip : Nat := 500000000000000

/-- parseEther of 0.002, the v2 high tip tier. -/
def v2HighTip : Nat := 2000000000000000

/-- parseEther of 0.01, the max fee of the v2 ultra conservative fallback. -/
def v2UltraMaxFee : Nat := 10000000000000000

/-- Outcomes of the external calls made by v2 getOptimizedGasConfig. -/
structure V2Env where
  blockBaseFee : Except String (Option Nat)
  gasPriceResult : Except String Nat
  estimateResult : Except String Nat

/-- Network fee lookup of getOptimizedGasConfig (v2 source lines 238 to 253):
one try block around getBlock and getGasPrice, each value or-else defaulted
(absent or zero falls back by JS truthiness), and a single catch giving both
fallbacks when either call throws. -/
def v2NetworkFees (env : V2Env) : Nat × Nat :=
  match env.blockBaseFee with
  | Except.error _ => (v2BaseFeeFallback, v2GasPriceFallback)
  | Except.ok bf =>
    match env.gasPriceResult with
    | Except.error _ => (v2BaseFeeFallback, v2GasPriceFallback)
    | Except.ok gp =>
      ((match bf with
        | none => v2BaseFeeFallback
        | some b => if b = 0 then v2BaseFeeFallback else b),
       if gp = 0 then v2GasPriceFallback else gp)

/-- Tiered priority fee of v2 (lines 288 to 290): low tip below the
threshold, high tip otherwise. -/
def v2Tip (baseFeePerGas : Nat) : Nat :=
  if baseFeePerGas < v2BaseFeeFallback then v2LowTip else v2HighTip

/-- Max fee candidate of v2 (lines 294 to 296): the larger of twice the base
fee plus the tip and the gas price plus the tip. -/
def v2MaxFeeCandidate (baseFeePerGas gasPrice : Nat) : Nat :=
  if baseFeePerGas * 2 + v2Tip baseFeePerGas > gasPrice + v2Tip baseFeePerGas then
    baseFeePerGas * 2 + v2Tip baseFeePerGas
  else gasPrice + v2Tip baseFeePerGas

/-- Fee pair of v2 after the validation check (lines 304 to 313): when the
tip is not strictly below the candidate the max fee is recomputed as three
times the tip. -/
def v2Pricing (baseFeePerGas gasPrice : Nat) : Nat × Nat :=
  if v2Tip baseFeePerGas ≥ v2MaxFeeCandidate baseFeePerGas gasPrice then
    (v2Tip baseFeePerGas * 3, v2Tip baseFeePerGas)
  else (v2MaxFeeCandidate baseFeePerGas gasPrice, v2Tip baseFeePerGas)

/-- v2 gas limit fallback keyed by function name (line 283): 150000 for
startGame, 100000 otherwise. -/
def v2GasLimitFallback (functionName : String) : Nat :=
  if functionName = "startGame" then 150000 else 100000

/-- v2 gas limit (lines 256 to 284): network estimate times 125 over 100, or
the keyed fallback when the estimation throws. -/
def v2GasLimit (env : V2Env) (functionName : String) : Nat :=
  match env.estimateResult with
  | Except.ok est => est * 125 / 100
  | Except.error _ => v2GasLimitFallback functionName

/-- Full gas configuration produced by v2. -/
structure GasConfig where
  gas : Nat
  maxFeePerGas : Nat
  maxPriorityFeePerGas : Nat
deriving DecidableEq

/-- v2 getOptimizedGasConfig (useTransactions-fixed-v2.tsx lines 224 to 331),
composed from the network fee lookup, the gas limit estimation and the
validated fee pair. -/
def getOptimizedGasConfig (env : V2Env) (functionName : String) : GasConfig :=
  { gas := v2GasLimit env functionName
    maxFeePerGas := (v2Pricing (v2NetworkFees env).1 (v2NetworkFees env).2).1
    maxPriorityFeePerGas := (v2Pricing (v2NetworkFees env).1 (v2NetworkFees env).2).2 }

/-- Ultra conservative fallback of the outer catch of v2 (lines 321 to 330). -/
def v2UltraFallback (functionName : String) : GasConfig :=
  { gas := v2GasLimitFallback functionName
    maxFeePerGas := v2UltraMaxFee
    maxPriorityFeePerGas := v2HighTip }

/-- Sample environment in which every external call succeeds. -/
def okEnv : NetworkEnv :=
  { getBlockBaseFee := Except.ok (some 1000000000)
    estimateGasResult := Except.ok 90000
    providerAvailable := true
    addressAvailable := true
    signResult := Except.ok "0xsigned"
    postResult := Except.ok { error := none, result := "0xabc" }
    receiptResult := Except.ok { status := ReceiptStatus.success } }

/-- Sample environment whose receipt reports a reverted transaction. -/
def revertedEnv : NetworkEnv :=
  { okEnv with receiptResult := Except.ok { status := ReceiptStatus.reverted } }

/-- Sample environment whose RPC response is an error payload. -/
def rpcErrorEnv : NetworkEnv :=
  { okEnv with
    postResult := Except.ok { error := some { message := "nonce too low" }, result := "" } }

/-- Sample environment whose base fee lookup throws. -/
def blockFailEnv : NetworkEnv :=
  { okEnv with getBlockBaseFee := Except.error "network down" }

/-- Sample cached account state above the balance threshold. -/
def richAccount : AccountState :=
  { nonce := 5, balance := 20000000000000000, address := "0xuser" }

/-- Sample cached account state below the balance threshold. -/
def poorAccount : AccountState :=
  { nonce := 5, balance := 9999999999999999, address := "0xuser" }

/-- Sample v2 environment whose gas estimation throws. -/
def v2EstFailEnv : V2Env :=
  { blockBaseFee := Except.ok (some 2500000)
    gasPriceResult := Except.ok 3000000
    estimateResult := Except.error "execution error" }

/-- Sample v2 environment in which every call succeeds. -/
def v2OkEnv : V2Env :=
  { blockBaseFee := Except.ok (some 2500000)
    gasPriceResult := Except.ok 3000000
    estimateResult := Except.ok 90000 }

/-- The v2 tip is one of two positive constants. -/
theorem v2Tip_pos (b : Nat) : 0 < v2Tip b := by
  unfold v2Tip v2LowTip v2HighTip
  split <;> decide

/-- The v2 fee pair always has the tip strictly below the max fee: either the
validation branch recomputes the max fee as three times the positive tip, or
the guard itself gives strictness. -/
theorem v2Pricing_invariant (b g : Nat) : (v2Pricing b g).2 < (v2Pricing b g).1 := by
  have hp := v2Tip_pos b
  unfold v2Pricing
  split
  · simpa using by omega
  · rename_i h
    simpa using Nat.lt_of_not_ge h

/-- Claim C1 (counterexample): the v1 getCurrentGasPrices violates the strict
EIP-1559 ordering on its success path when the fetched base fee is 0.4 gwei:
the max fee is 0.8 gwei while the fixed tip is 1 gwei, so
maxFeePerGas > maxPriorityFeePerGas fails. -/
theorem c1_invariant_counterexample :
    ¬ ((getCurrentGasPrices (Except.ok (some 400000000))).maxPriorityFeePerGas <
       (getCurrentGasPrices (Except.ok (some 400000000))).maxFeePerGas) := by
  decide

/-- Claim C1 (amended): every GasConfig produced by the v2 getOptimizedGasConfig
satisfies maxFeePerGas > maxPriorityFeePerGas over all base fee, gas price and
estimation inputs, and so does the v2 ultra conservative fallback; the v1
getCurrentGasPrices satisfies the strict ordering on its network failure
fallback path, on a block without a base fee field, and whenever twice the
fetched base fee exceeds the fixed 1 gwei tip, but not over all base fee
inputs. -/
theorem c1_gas_invariant_holds_amended (env : V2Env) (fn : String) (b g bf : Nat)
    (s : String) (hbf : gwei 1 < bf * 2) :
    (getOptimizedGasConfig env fn).maxPriorityFeePerGas <
      (getOptimizedGasConfig env fn).maxFeePerGas ∧
    (v2UltraFallback fn).maxPriorityFeePerGas < (v2UltraFallback fn).maxFeePerGas ∧
    (v2Pricing b g).2 < (v2Pricing b g).1 ∧
    (getCurrentGasPrices (Except.error s)).maxPriorityFeePerGas <
      (getCurrentGasPrices (Except.error s)).maxFeePerGas ∧
    (getCurrentGasPrices (Except.ok none)).maxPriorityFeePerGas <
      (getCurrentGasPrices (Except.ok none)).maxFeePerGas ∧
    (getCurrentGasPrices (Except.ok (some bf))).maxPriorityFeePerGas <
      (getCurrentGasPrices (Except.ok (some bf))).maxFeePerGas := by
  refine ⟨?_, ?_, v2Pricing_invariant b g, ?_, ?_, ?_⟩
  · simpa [getOptimizedGasConfig] using
      v2Pricing_invariant (v2NetworkFees env).1 (v2NetworkFees env).2
  · simp [v2UltraFallback, v2UltraMaxFee, v2HighTip]
  · simp [getCurrentGasPrices, gwei, weiPerGwei]
  · simp [getCurrentGasPrices, gwei, weiPerGwei]
  · unfold getCurrentGasPrices
    by_cases h0 : bf = 0
    · subst h0
      simp [gwei, weiPerGwei]
    · simp only [h0, if_false]
      unfold gwei weiPerGwei at hbf ⊢
      simpa using hbf

/-- Claim C1 (witness for the amended theorem) at a 1 gwei base fee. -/
theorem c1_gas_invariant_witness :
    (getOptimizedGasConfig v2OkEnv "play").maxPriorityFeePerGas <
      (getOptimizedGasConfig v2OkEnv "play").maxFeePerGas ∧
    (v2UltraFallback "play").maxPriorityFeePerGas <
      (v2UltraFallback "play").maxFeePerGas ∧
    (v2Pricing 7 3).2 < (v2Pricing 7 3).1 ∧
    (getCurrentGasPrices (Except.error "network down")).maxPriorityFeePerGas <
      (getCurrentGasPrices (Except.error "network down")).maxFeePerGas ∧
    (getCurrentGasPrices (Except.ok none)).maxPriorityFeePerGas <
      (getCurrentGasPrices (Except.ok none)).maxFeePerGas ∧
    (getCurrentGasPrices (Except.ok (some 1000000000))).maxPriorityFeePerGas <
      (getCurrentGasPrices (Except.ok (some 1000000000))).maxFeePerGas :=
  c1_gas_invariant_holds_amended v2OkEnv "play" 7 3 1000000000 "network down" (by decide)

/-- The pricing rule exactly as claim C2 words it, for a given priority fee:
the max fee is the maximum of twice the base fee plus the priority fee and the
current gas price plus the priority fee; if the check that it strictly exceeds
the priority fee fails, it is recomputed as three times the priority fee. -/
def claimedGasPricing (priorityFee baseFee gasPrice : Nat) : Nat × Nat :=
  if max (baseFee * 2 + priorityFee) (gasPrice + priorityFee) > priorityFee then
    (max (baseFee * 2 + priorityFee) (gasPrice + priorityFee), priorityFee)
  else (priorityFee * 3, priorityFee)

/-- The conditional max fee candidate of the source is the stated maximum. -/
theorem v2MaxFeeCandidate_eq_max (b g : Nat) :
    v2MaxFeeCandidate b g = max (b * 2 + v2Tip b) (g + v2Tip b) := by
  unfold v2MaxFeeCandidate
  split
  · rename_i h
    exact (Nat.max_eq_left (Nat.le_of_lt h)).symm
  · rename_i h
    exact (Nat.max_eq_right (Nat.le_of_not_lt h)).symm

/-- The v2 fee pair coincides with the pricing rule of claim C2. -/
theorem v2Pricing_eq_claimed (b g : Nat) :
    v2Pricing b g = claimedGasPricing (v2Tip b) b g := by
  unfold v2Pricing claimedGasPricing
  rw [v2MaxFeeCandidate_eq_max]
  generalize max (b * 2 + v2Tip b) (g + v2Tip b) = M
  generalize v2Tip b = p
  split <;> split <;> first | rfl | (exfalso; omega)

/-- Claim C2: the gas pricing of getOptimizedGasConfig computes the max fee as
the maximum of twice the base fee plus the priority fee and the current gas
price plus the priority fee, then, when the check that the max fee strictly
exceeds the priority fee fails, recomputes it as three times the priority fee;
this holds for every base fee and gas price, and for the full operation over
every environment. -/
theorem c2_pricing_follows_claimed_rule (b g : Nat) (env : V2Env) (fn : String) :
    v2Pricing b g = claimedGasPricing (v2Tip b) b g ∧
    ((getOptimizedGasConfig env fn).maxFeePerGas,
     (getOptimizedGasConfig env fn).maxPriorityFeePerGas) =
      claimedGasPricing (v2Tip (v2NetworkFees env).1)
        (v2NetworkFees env).1 (v2NetworkFees env).2 := by
  refine ⟨v2Pricing_eq_claimed b g, ?_⟩
  have h := v2Pricing_eq_claimed (v2NetworkFees env).1 (v2NetworkFees env).2
  simp [getOptimizedGasConfig, ← h]

/-- Claim C3: when the network gas estimation throws, getOptimizedGasConfig
falls back to a gas limit keyed by the operation type: 150000 for the game
initialization function startGame and 100000 for a move. -/
theorem c3_fallback_keyed_by_operation (env : V2Env) (m : String)
    (h : env.estimateResult = Except.error m) :
    (getOptimizedGasConfig env "startGame").gas = 150000 ∧
    (getOptimizedGasConfig env "play").gas = 100000 := by
  constructor <;> simp [getOptimizedGasConfig, v2GasLimit, h, v2GasLimitFallback]

/-- Claim C3 (witness): a concrete v2 environment with a throwing estimation. -/
theorem c3_fallback_witness :
    (getOptimizedGasConfig v2EstFailEnv "startGame").gas = 150000 ∧
    (getOptimizedGasConfig v2EstFailEnv "play").gas = 100000 :=
  c3_fallback_keyed_by_operation v2EstFailEnv "execution error" rfl

/-- Claim C4: whenever the cached balance is below the 0.01 ether threshold,
both domain operations fail with the insufficient balance error, the event
trace is empty (so no gas pricing, estimation, signing, submission or
notification happened), and the cached account state, in particular the nonce
and the balance, is returned unchanged. -/
theorem c4_insufficient_balance_blocks (env : NetworkEnv) (st : AccountState)
    (mc : Nat) (h : st.balance < minBalanceWei) :
    initializeGameTransaction env st =
      (Except.error "Signer has insufficient balance.", st, []) ∧
    playNewMoveTransaction env st mc =
      (Except.error "Signer has insufficient balance.", st, []) := by
  constructor <;> simp [initializeGameTransaction, playNewMoveTransaction, h]

/-- Claim C4 (witness): an account one wei below the threshold. -/
theorem c4_insufficient_balance_witness :
    initializeGameTransaction okEnv poorAccount =
      (Except.error "Signer has insufficient balance.", poorAccount, []) ∧
    playNewMoveTransaction okEnv poorAccount 2 =
      (Except.error "Signer has insufficient balance.", poorAccount, []) :=
  c4_insufficient_balance_blocks okEnv poorAccount 2 (by decide)

/-- Claim C7: when the base fee lookup throws, the v1 getCurrentGasPrices
returns, without surfacing the error (it is a total function into GasPricing),
exactly the documented fallback pair of 2 gwei max fee and 1 gwei tip, and a
submission without caller fee fields signs with that pair. -/
theorem c7_fallback_tuple (m : String) (env : NetworkEnv) (st : AccountState)
    (h : env.getBlockBaseFee = Except.error m) :
    getCurrentGasPrices (Except.error m) =
      { maxFeePerGas := gwei 2, maxPriorityFeePerGas := gwei 1 } ∧
    resolveGasParams env (initSendArgs st) =
      { maxFeePerGas := gwei 2, maxPriorityFeePerGas := gwei 1 } := by
  constructor
  · rfl
  · simp [resolveGasParams, feeParamsTruthy, truthyN, initSendArgs, h, getCurrentGasPrices]

/-- Claim C7 (witness): a concrete environment with a throwing block lookup. -/
theorem c7_fallback_tuple_witness :
    getCurrentGasPrices (Except.error "network down") =
      { maxFeePerGas := gwei 2, maxPriorityFeePerGas := gwei 1 } ∧
    resolveGasParams blockFailEnv (initSendArgs richAccount) =
      { maxFeePerGas := gwei 2, maxPriorityFeePerGas := gwei 1 } :=
  c7_fallback_tuple "network down" blockFailEnv richAccount rfl

/-- Claim C5: when the eth_sendRawTransaction response carries an error
payload, the submission fails with exactly the node message, no receipt wait
is attempted, and neither a submitted nor a confirmed notification is shown
(only the failure toast of the catch block). -/
theorem c5_rpc_error_stops_flow (env : NetworkEnv) (args : SendArgs) (m r : String)
    (hp : env.providerAvailable = true) (ha : env.addressAvailable = true)
    (hs : ∃ s, env.signResult = Except.ok s)
    (hpost : env.postResult = Except.ok { error := some { message := m }, result := r }) :
    (sendRawTransactionAndConfirm env args).1 = Except.error m ∧
    Event.callWaitReceipt ∉ (sendRawTransactionAndConfirm env args).2 ∧
    Event.notifySubmitted ∉ (sendRawTransactionAndConfirm env args).2 ∧
    Event.notifyConfirmed ∉ (sendRawTransactionAndConfirm env args).2 := by
  obtain ⟨s, hs⟩ := hs
  have hfst : (sendRawAttempt env args).1 = Except.error m := by
    simp [sendRawAttempt, hp, ha, hs, hpost]
  have hsnd : (sendRawAttempt env args).2 =
      ((if feeParamsTruthy args then [] else [Event.callGetBlock]) ++
       (if truthyN args.gas then [] else estimateGasEvents env.addressAvailable)) ++
      [Event.callSign, Event.callPost] := by
    simp [sendRawAttempt, hp, ha, hs, hpost]
  refine ⟨?_, ?_, ?_, ?_⟩
  · simp [sendRawTransactionAndConfirm, hfst]
  all_goals
    simp only [sendRawTransactionAndConfirm, hfst, hsnd, ha, estimateGasEvents]
    split <;> split <;> simp

/-- Claim C5 (witness): the nonce too low response on a concrete submission. -/
theorem c5_rpc_error_witness :
    (sendRawTransactionAndConfirm rpcErrorEnv (initSendArgs richAccount)).1 =
      Except.error "nonce too low" ∧
    Event.callWaitReceipt ∉
      (sendRawTransactionAndConfirm rpcErrorEnv (initSendArgs richAccount)).2 ∧
    Event.notifySubmitted ∉
      (sendRawTransactionAndConfirm rpcErrorEnv (initSendArgs richAccount)).2 ∧
    Event.notifyConfirmed ∉
      (sendRawTransactionAndConfirm rpcErrorEnv (initSendArgs richAccount)).2 :=
  c5_rpc_error_stops_flow rpcErrorEnv (initSendArgs richAccount) "nonce too low" ""
    rfl rfl ⟨"0xsigned", rfl⟩ rfl

/-- Trace of a fully successful submission with no caller gas fields. -/
def successTrace : List Event :=
  [Event.callGetBlock, Event.callEstimateGas, Event.callSign, Event.callPost,
   Event.notifySubmitted, Event.callWaitReceipt, Event.notifyConfirmed]

/-- A successful try body forces every external call to have succeeded:
provider and address present, signing, posting without an error payload, and
a receipt whose status is success. -/
theorem attempt_ok_env (env : NetworkEnv) (args : SendArgs)
    (h : (sendRawAttempt env args).1 = Except.ok ()) :
    env.providerAvailable = true ∧ env.addressAvailable = true ∧
    (∃ s, env.signResult = Except.ok s) ∧
    (∃ r, env.postResult = Except.ok r ∧ r.error = none) ∧
    (∃ rc, env.receiptResult = Except.ok rc ∧ rc.status = ReceiptStatus.success) := by
  obtain ⟨bf, est, prov, addr, sign, post, rcpt⟩ := env
  cases prov with
  | false => simp [sendRawAttempt] at h
  | true =>
  cases addr with
  | false => simp [sendRawAttempt] at h
  | true =>
  cases sign with
  | error m => simp [sendRawAttempt] at h
  | ok s =>
  cases post with
  | error m => simp [sendRawAttempt] at h
  | ok resp =>
  obtain ⟨err, res⟩ := resp
  cases err with
  | some p => simp [sendRawAttempt] at h
  | none =>
  cases rcpt with
  | error m => simp [sendRawAttempt] at h
  | ok receipt =>
  obtain ⟨status⟩ := receipt
  cases status with
  | reverted => simp [sendRawAttempt] at h
  | success =>
    exact ⟨rfl, rfl, ⟨s, rfl⟩, ⟨{ error := none, result := res }, rfl, rfl⟩,
      ⟨{ status := ReceiptStatus.success }, rfl, rfl⟩⟩

/-- A successful try body with no caller gas fields produces exactly the
success trace: block lookup, estimation, signing, post, the submitted toast,
the receipt wait, then the confirmed toast. -/
theorem attempt_ok_trace (env : NetworkEnv) (args : SendArgs)
    (hmf : args.maxFeePerGas = none) (hgas : args.gas = none)
    (h : (sendRawAttempt env args).1 = Except.ok ()) :
    (sendRawAttempt env args).2 = successTrace := by
  obtain ⟨hp, ha, ⟨s, hs⟩, ⟨r, hpost, herr⟩, ⟨rc, hrc, hst⟩⟩ := attempt_ok_env env args h
  obtain ⟨err, res⟩ := r
  obtain ⟨status⟩ := rc
  simp only at herr hst
  subst herr hst
  simp [sendRawAttempt, hp, ha, hs, hpost, hrc, feeParamsTruthy, truthyN, hmf, hgas,
    estimateGasEvents, successTrace]

/-- Claim C6: on every successful run of a domain operation the submitted
notification occurs strictly before the confirmed notification in the event
trace, and the cached optimistic nonce increases by exactly one for the call. -/
theorem c6_submitted_before_confirmed (env : NetworkEnv) (st : AccountState) (mc : Nat) :
    ((initializeGameTransaction env st).1 = Except.ok () →
      (initializeGameTransaction env st).2.1.nonce = st.nonce + 1 ∧
      ∃ pre mid post, (initializeGameTransaction env st).2.2 =
        pre ++ Event.notifySubmitted :: (mid ++ Event.notifyConfirmed :: post)) ∧
    ((playNewMoveTransaction env st mc).1 = Except.ok () →
      (playNewMoveTransaction env st mc).2.1.nonce = st.nonce + 1 ∧
      ∃ pre mid post, (playNewMoveTransaction env st mc).2.2 =
        pre ++ Event.notifySubmitted :: (mid ++ Event.notifyConfirmed :: post)) := by
  by_cases hb : st.balance < minBalanceWei
  · constructor <;> intro h <;>
      simp [initializeGameTransaction, playNewMoveTransaction, hb] at h
  · constructor
    · intro h
      simp only [initializeGameTransaction, if_neg hb, sendRawTransactionAndConfirm] at h ⊢
      have htr := attempt_ok_trace env (initSendArgs st) rfl rfl h
      refine ⟨by simp, [Event.callGetBlock, Event.callEstimateGas, Event.callSign,
        Event.callPost], [Event.callWaitReceipt], [], ?_⟩
      simp [h, htr, successTrace]
    · intro h
      simp only [playNewMoveTransaction, if_neg hb, sendRawTransactionAndConfirm] at h ⊢
      have htr := attempt_ok_trace env (playSendArgs st mc) rfl rfl h
      refine ⟨by simp, [Event.callGetBlock, Event.callEstimateGas, Event.callSign,
        Event.callPost], [Event.callWaitReceipt], [], ?_⟩
      simp [h, htr, successTrace]

/-- Claim C6 (witness): a concrete fully successful initialization and move. -/
theorem c6_submitted_before_confirmed_witness :
    ((initializeGameTransaction okEnv richAccount).2.1.nonce = richAccount.nonce + 1 ∧
      ∃ pre mid post, (initializeGameTransaction okEnv richAccount).2.2 =
        pre ++ Event.notifySubmitted :: (mid ++ Event.notifyConfirmed :: post)) ∧
    ((playNewMoveTransaction okEnv richAccount 3).2.1.nonce = richAccount.nonce + 1 ∧
      ∃ pre mid post, (playNewMoveTransaction okEnv richAccount 3).2.2 =
        pre ++ Event.notifySubmitted :: (mid ++ Event.notifyConfirmed :: post)) :=
  ⟨(c6_submitted_before_confirmed okEnv richAccount 3).1 rfl,
   (c6_submitted_before_confirmed okEnv richAccount 3).2 rfl⟩

/-- Claim C8: in sendRawTransactionAndConfirm every error outcome, the
reverted receipt included, both propagates to the caller (the outcome is
Except.error with the message) and leaves a failure notification in the
trace; and the call returns normally only when no error occurred at all:
provider and address present, signing succeeded, the RPC response carried no
error payload, and the receipt wait returned a non reverted status. -/
theorem c8_errors_propagate_and_notify (env : NetworkEnv) (args : SendArgs) :
    (∀ m, (sendRawTransactionAndConfirm env args).1 = Except.error m →
       Event.notifyFailed m ∈ (sendRawTransactionAndConfirm env args).2) ∧
    ((sendRawTransactionAndConfirm env args).1 = Except.ok () →
       env.providerAvailable = true ∧ env.addressAvailable = true ∧
       (∃ s, env.signResult = Except.ok s) ∧
       (∃ r, env.postResult = Except.ok r ∧ r.error = none) ∧
       (∃ rc, env.receiptResult = Except.ok rc ∧ rc.status = ReceiptStatus.success)) := by
  constructor
  · intro m hm
    have hm' : (sendRawAttempt env args).1 = Except.error m := by
      simpa [sendRawTransactionAndConfirm] using hm
    simp [sendRawTransactionAndConfirm, hm']
  · intro h
    exact attempt_ok_env env args (by simpa [sendRawTransactionAndConfirm] using h)

/-- Claim C8 (witness): the reverted receipt on a concrete submission yields
a failure toast carrying the propagated message. -/
theorem c8_errors_witness :
    Event.notifyFailed ("Failed to confirm transaction: " ++ "0xabc") ∈
      (sendRawTransactionAndConfirm revertedEnv (initSendArgs richAccount)).2 :=
  (c8_errors_propagate_and_notify revertedEnv (initSendArgs richAccount)).1
    ("Failed to confirm transaction: " ++ "0xabc") rfl

/-- Claim C9: when a domain operation runs past the balance check and the
submission then fails with a thrown error, the cached nonce stays advanced by
one and the cached balance stays decremented by the optimistic cost, 0.0075
ether for initialization and 0.005 ether for a move; the address field, the
only other cached field, is unchanged, and no rollback happens. -/
theorem c9_no_rollback_on_failure (env : NetworkEnv) (st : AccountState) (mc : Nat)
    (m : String) (hb : ¬ st.balance < minBalanceWei) :
    ((initializeGameTransaction env st).1 = Except.error m →
       (initializeGameTransaction env st).2.1 =
         { nonce := st.nonce + 1, balance := st.balance - initGameCostWei,
           address := st.address }) ∧
    ((playNewMoveTransaction env st mc).1 = Except.error m →
       (playNewMoveTransaction env st mc).2.1 =
         { nonce := st.nonce + 1, balance := st.balance - playMoveCostWei,
           address := st.address }) := by
  constructor <;> intro _ <;>
    simp [initializeGameTransaction, playNewMoveTransaction, hb]

/-- Claim C9 (witness): a reverted transaction leaves the optimistic state. -/
theorem c9_no_rollback_witness :
    (initializeGameTransaction revertedEnv richAccount).2.1 =
      { nonce := richAccount.nonce + 1,
        balance := richAccount.balance - initGameCostWei,
        address := richAccount.address } :=
  (c9_no_rollback_on_failure revertedEnv richAccount 1
    ("Failed to confirm transaction: " ++ "0xabc") (by decide)).1 rfl

/-- Sample submission arguments supplying only one fee field, a zero gas
limit, and a nonzero value for the supplied field. -/
def oneFeeArgs : SendArgs :=
  { successText := "", data := "call data", nonce := 0,
    gas := some 0, maxFeePerGas := some 5, maxPriorityFeePerGas := none }

/-- Claim C10: the signing request uses the caller fee pair exactly when both
fee fields are supplied and nonzero; when either is absent or zero both are
discarded for the network derived pair of getCurrentGasPrices; and a gas
limit that is absent or zero is replaced by the network estimate, while a
nonzero caller gas limit is used as given. -/
theorem c10_gas_param_truthiness (env : NetworkEnv) (args : SendArgs) :
    ((∃ a b, args.maxFeePerGas = some a ∧ a ≠ 0 ∧
        args.maxPriorityFeePerGas = some b ∧ b ≠ 0) →
      (signRequestOf env args).maxFeePerGas = args.maxFeePerGas.getD 0 ∧
      (signRequestOf env args).maxPriorityFeePerGas = args.maxPriorityFeePerGas.getD 0) ∧
    ((args.maxFeePerGas = none ∨ args.maxFeePerGas = some 0 ∨
      args.maxPriorityFeePerGas = none ∨ args.maxPriorityFeePerGas = some 0) →
      (signRequestOf env args).maxFeePerGas =
        (getCurrentGasPrices env.getBlockBaseFee).maxFeePerGas ∧
      (signRequestOf env args).maxPriorityFeePerGas =
        (getCurrentGasPrices env.getBlockBaseFee).maxPriorityFeePerGas) ∧
    ((args.gas = none ∨ args.gas = some 0) →
      (signRequestOf env args).gas =
        estimateGas env.addressAvailable env.estimateGasResult) ∧
    (∀ gl, args.gas = some gl → gl ≠ 0 → (signRequestOf env args).gas = gl) := by
  refine ⟨?_, ?_, ?_, ?_⟩
  · rintro ⟨a, b, hma, ha0, hmb, hb0⟩
    simp [signRequestOf, resolveGasParams, feeParamsTruthy, truthyN, hma, hmb, ha0, hb0]
  · rintro (hm | hm | hm | hm) <;>
      simp [signRequestOf, resolveGasParams, feeParamsTruthy, truthyN, hm]
  · rintro (hg | hg) <;>
      simp [signRequestOf, resolveGasLimit, truthyN, hg]
  · intro gl hg hg0
    simp [signRequestOf, resolveGasLimit, truthyN, hg, hg0]

/-- Claim C10 (witness): with one truthy fee field and a zero gas limit, the
network derived pair and the network estimate are used. -/
theorem c10_gas_param_witness :
    ((signRequestOf okEnv oneFeeArgs).maxFeePerGas =
        (getCurrentGasPrices okEnv.getBlockBaseFee).maxFeePerGas ∧
      (signRequestOf okEnv oneFeeArgs).maxPriorityFeePerGas =
        (getCurrentGasPrices okEnv.getBlockBaseFee).maxPriorityFeePerGas) ∧
    (signRequestOf okEnv oneFeeArgs).gas =
      estimateGas okEnv.addressAvailable okEnv.estimateGasResult :=
  ⟨(c10_gas_param_truthiness okEnv oneFeeArgs).2.1 (Or.inr (Or.inr (Or.inl rfl))),
   (c10_gas_param_truthiness okEnv oneFeeArgs).2.2.1 (Or.inr rfl)⟩
